import Mathlib

/-!
Verification development for the ResilientDB Ansible MCP server
(custom-mcp-server/resilientdb_mcp/resilientdb_mcp.py).

The Python module is shallowly embedded: filesystem presence is a record of
booleans, external processes and HTTP calls are oracles supplied through an
environment record, and every handler returns the new lifecycle flag, the new
filesystem, the list of side effects it performed, and either its textual
result or a propagated Python exception.
-/

/- ── Python string primitives, modelled over lists of characters ── -/

/-- Membership test of one character list as a prefix of another. -/
def prefixOfL : List Char → List Char → Bool
  | [], _ => true
  | _ :: _, [] => false
  | a :: as, b :: bs => a == b && prefixOfL as bs

/-- Contiguous-substring test on character lists. -/
def substrOfL : List Char → List Char → Bool
  | n, [] => prefixOfL n []
  | n, h :: t => prefixOfL n (h :: t) || substrOfL n t

/-- Python `needle in hay` on strings. -/
def pyIn (needle hay : String) : Bool :=
  substrOfL needle.data hay.data

/-- Python `str.split(c)` on character lists: splits at every occurrence of the
separator, keeping empty segments. -/
def splitOnNL : List Char → List (List Char)
  | [] => [[]]
  | x :: xs =>
    let r := splitOnNL xs
    if x == '\n' then [] :: r
    else (x :: r.headD []) :: r.tail

/-- Python `stdout.split(chr(10))`. -/
def splitLines (s : String) : List String :=
  (splitOnNL s.data).map (fun l => ⟨l⟩)

/-- Python `chr(10).join(lines)`. -/
def joinLines (lines : List String) : String :=
  String.intercalate "\n" lines

/-- Python `str.strip()`: drop whitespace from both ends. -/
def pyStrip (s : String) : String :=
  ⟨((s.data.dropWhile Char.isWhitespace).reverse.dropWhile Char.isWhitespace).reverse⟩

/-- Python truthiness of `line.strip()`: the stripped line is non-empty. -/
def nonBlank (s : String) : Bool :=
  pyStrip s != ""

/-- Python `l[-n:]` on lists: the last `n` elements (all of them when shorter). -/
def takeLast (n : Nat) (l : List α) : List α :=
  l.drop (l.length - n)

/-- Python `s[-n:]` on strings. -/
def lastChars (n : Nat) (s : String) : String :=
  ⟨takeLast n s.data⟩

/-- Python `s[:n]` on strings. -/
def firstChars (n : Nat) (s : String) : String :=
  ⟨s.data.take n⟩

/-- ASCII decimal-digit test, Python `c.isdigit()` restricted to ASCII. -/
def isDigitChar (c : Char) : Bool :=
  '0' ≤ c && c ≤ '9'

/-- Python `s.isdigit()` (ASCII): non-empty and all characters are digits. -/
def pyIsDigit (s : String) : Bool :=
  s != "" && s.data.all isDigitChar

/-- ASCII lower-casing of one character, Python `c.lower()`. -/
def lowerChar (c : Char) : Char :=
  if 'A' ≤ c && c ≤ 'Z' then Char.ofNat (c.toNat + 32) else c

/-- Python `s.lower()` (ASCII). -/
def pyLower (s : String) : String :=
  ⟨s.data.map lowerChar⟩

/-- Value of Python `int(s)` for a string of decimal digits. -/
def digitsToNat (s : String) : Nat :=
  s.data.foldl (fun n c => 10 * n + (c.toNat - 48)) 0

/- ── Data model ── -/

/-- Scalar values stored in the YAML configuration document. -/
inductive YVal where
  | s (v : String)
  | i (v : Int)
  | b (v : Bool)
  deriving DecidableEq

/-- Rendering of a coerced value inside the f-string of `_update_config`
(Python `str()`: `True`/`False` for booleans, decimal for integers). -/
def yvalStr : YVal → String
  | .s v => v
  | .i n => toString n
  | .b b => if b then "True" else "False"

/-- Contents of the configuration file `all.yml`: either a mapping (an ordered
association list, as Python dicts preserve insertion order) or unparseable
content, whose load raises with the given message. -/
inductive ConfigContent where
  | malformed (msg : String)
  | doc (entries : List (String × YVal))
  deriving DecidableEq

/-- Filesystem state visible to the server: presence of the working directory,
the cloned deployment directory and its key artifacts, and the configuration
file contents. -/
structure FS where
  workDirE : Bool
  ansibleDirE : Bool
  playbookE : Bool
  inventoryE : Bool
  dockerfileE : Bool
  startupE : Bool
  configFile : Option ConfigContent
  deriving DecidableEq

/-- Captured outcome of a completed `subprocess.run` call. -/
structure ProcResult where
  exitCode : Int
  stdout : String
  stderr : String
  deriving DecidableEq

/-- Outcome of attempting `subprocess.run`: the binary may be missing
(`FileNotFoundError`), the timeout may expire (`TimeoutExpired`), some other
exception may be raised, or the process runs to completion. -/
inductive RunOutcome where
  | fnf
  | timedOut (msg : String)
  | exc (msg : String)
  | ran (r : ProcResult)
  deriving DecidableEq

/-- Outcome of an HTTP request issued through aiohttp. -/
inductive HttpOutcome where
  | exc (msg : String)
  | resp (status : Nat) (body : String)
  deriving DecidableEq

/-- Outcome of the GraphQL POST: an exception (network or JSON decode), or a
successfully parsed response rendered by `json.dumps(result, indent=2)`. -/
inductive GqlOutcome where
  | exc (msg : String)
  | json (dump : String)
  deriving DecidableEq

/-- Python exception escaping a handler or the dispatcher. -/
inductive PyExc where
  | keyError (key : String)
  | uncaught (msg : String)
  deriving DecidableEq

/-- Side effects a handler can perform, in execution order. -/
inductive Effect where
  | mkdirP (path : String)
  | rmtree (path : String)
  | spawn (cmd : List String) (timeout : Option Nat)
  | chmod (path : String) (mode : Nat)
  | readFile (path : String)
  | writeFile (path : String) (doc : List (String × YVal))
  | httpPost (url : String)
  | httpGet (url : String)
  deriving DecidableEq

/-- Result of one handler or dispatcher invocation: final lifecycle flag,
final filesystem, side-effect trace, and the textual result or a propagated
exception. -/
structure HOut where
  st : Bool
  fs : FS
  effs : List Effect
  res : Except PyExc String

/-- External environment: `shutil.which`, `subprocess.run` keyed by command
and timeout, the filesystem left behind by a completed `git clone` process,
and the HTTP endpoints. -/
structure ExtEnv where
  which : String → Bool
  run : List String → Option Nat → RunOutcome
  clonePost : FS
  httpPostR : String → List (String × String) → HttpOutcome
  httpGetR : String → HttpOutcome
  gqlPostR : String → GqlOutcome

/-- JSON-typed argument values of a tool invocation (the `dict` constructor
abstracts the object type used only by the optional GraphQL variables). -/
inductive Arg where
  | str (v : String)
  | bool (v : Bool)
  | int (v : Int)
  | dict
  deriving DecidableEq

/-- Argument mapping of a tool invocation. -/
def Args := List (String × Arg)

/-- Python `arguments[k]`: missing keys are a `KeyError`. -/
def argLookup (args : Args) (k : String) : Option Arg :=
  (args.find? (fun p => p.1 == k)).map (fun p => p.2)

/-- Python `arguments.get(k, d)`. -/
def argGet (args : Args) (k : String) (d : Arg) : Arg :=
  (argLookup args k).getD d

/-- String reading of an argument value (handlers assume schema-typed
values; non-strings are rendered as Python would stringify them). -/
def Arg.asStr : Arg → String
  | .str v => v
  | .bool b => if b then "True" else "False"
  | .int n => toString n
  | .dict => "\x7b\x7d"

/-- Python truthiness of an argument value. -/
def Arg.truthy : Arg → Bool
  | .str v => v != ""
  | .bool b => b
  | .int n => n != 0
  | .dict => false

/-- Integer reading of an argument value. -/
def Arg.asInt : Arg → Int
  | .int n => n
  | .bool b => if b then 1 else 0
  | _ => 0

/- ── Module-level configuration constants ── -/

/-- Remote repository URL cloned by the server. -/
def REPO_URL : String := "https://github.com/apache/incubator-resilientdb-ansible.git"

/-- Working directory of the server, `Path.home() / ".resilientdb-mcp"`. -/
def WORK_DIR : String := "~/.resilientdb-mcp"

/-- Deployment directory, `WORK_DIR / "incubator-resilientdb-ansible"`. -/
def ANSIBLE_DIR : String := WORK_DIR ++ "/incubator-resilientdb-ansible"

/-- Host-inventory file inside the deployment directory. -/
def INVENTORY_FILE : String := ANSIBLE_DIR ++ "/inventories/production/hosts"

/-- Playbook file inside the deployment directory. -/
def PLAYBOOK_FILE : String := ANSIBLE_DIR ++ "/site.yml"

/-- Container build file inside the deployment directory. -/
def DOCKERFILE_FILE : String := ANSIBLE_DIR ++ "/dockerfile"

/-- Quick-start script inside the deployment directory. -/
def STARTUP_SCRIPT : String := ANSIBLE_DIR ++ "/complete-startup.sh"

/-- Configuration file inside the deployment directory. -/
def CONFIG_FILE : String := ANSIBLE_DIR ++ "/inventories/production/group_vars/all.yml"

/-- Crow HTTP API base URL. -/
def CROW_BASE_URL : String := "http://localhost:18000"

/-- GraphQL API URL. -/
def GRAPHQL_URL : String := "http://localhost:8000/graphql"

/-- Block message returned by every state-dependent handler when the
lifecycle flag is unset. -/
def NOT_INIT_MSG : String :=
  "Environment not initialized. Please run \x27initialize_environment\x27 first"

/-- Textual form of the `FileNotFoundError` message, abstracted (the exact
errno text is not modelled; no claim depends on it). -/
def FNF_MSG : String := "[Errno 2] No such file or directory"

/- ── Handler: initialize_environment ── -/

/-- Command run to clone the deployment repository. -/
def cloneCmd : List String := ["git", "clone", REPO_URL, ANSIBLE_DIR]

/-- One line of the key-artifact report of `_initialize_environment`. -/
def foundLine (nm path : String) (present : Bool) : String :=
  if present then nm ++ " found: " ++ path else nm ++ " missing: " ++ path

/-- Key-artifact report of `_initialize_environment`, in the order of the
`key_files` dict. -/
def keyFilesReport (fs : FS) : List String :=
  [ foundLine "Playbook" PLAYBOOK_FILE fs.playbookE,
    foundLine "Inventory" INVENTORY_FILE fs.inventoryE,
    foundLine "Dockerfile" DOCKERFILE_FILE fs.dockerfileE,
    foundLine "Complete startup script" STARTUP_SCRIPT fs.startupE ]

/-- Filesystem after `shutil.rmtree(ANSIBLE_DIR)`: the deployment directory
and everything inside it, including the configuration file, are gone. -/
def rmAnsibleDir (fs : FS) : FS :=
  { fs with ansibleDirE := false, playbookE := false, inventoryE := false,
            dockerfileE := false, startupE := false, configFile := none }

/-- Embedding of `_initialize_environment`. The clone subprocess is guarded
only by `except FileNotFoundError`, so any other exception propagates. On a
completed clone process the filesystem becomes the oracle-supplied
`clonePost`. -/
def initialize_environment (force st : Bool) (fs : FS) (ext : ExtEnv) : HOut :=
  let fs1 : FS := { fs with workDirE := true }
  let effs0 : List Effect := [Effect.mkdirP WORK_DIR]
  if fs1.ansibleDirE && !force then
    ⟨true, fs1, effs0,
      .ok (joinLines (("Repository already exists at " ++ ANSIBLE_DIR) :: keyFilesReport fs1))⟩
  else
    let step2 : FS × List Effect × List String :=
      if fs1.ansibleDirE && force then
        (rmAnsibleDir fs1, effs0 ++ [Effect.rmtree ANSIBLE_DIR], ["Removed existing repository"])
      else (fs1, effs0, [])
    let fs2 := step2.1
    let effs2 := step2.2.1 ++ [Effect.spawn cloneCmd none]
    let res2 := step2.2.2
    match ext.run cloneCmd none with
    | .fnf =>
        ⟨st, fs2, effs2,
          .ok (joinLines (res2 ++
            ["Error: git is not installed. Please run \x27install_dependencies\x27 first"]))⟩
    | .timedOut m => ⟨st, fs2, effs2, .error (.uncaught m)⟩
    | .exc m => ⟨st, fs2, effs2, .error (.uncaught m)⟩
    | .ran r =>
        let fs3 := ext.clonePost
        if r.exitCode == 0 then
          ⟨true, fs3, effs2,
            .ok (joinLines (res2 ++
              (("Successfully cloned repository to " ++ ANSIBLE_DIR) :: keyFilesReport fs3)))⟩
        else
          ⟨st, fs3, effs2,
            .ok (joinLines (res2 ++ ["Failed to clone repository: " ++ r.stderr]))⟩

/- ── Handler: check_dependencies ── -/

/-- Dependency table of `_check_dependencies`, in declaration order. -/
def depsList : List (String × String) :=
  [("git", "Version control for cloning repositories"),
   ("ansible", "Configuration management tool"),
   ("ansible-playbook", "Ansible playbook executor"),
   ("python3", "Python interpreter"),
   ("pip", "Python package manager"),
   ("docker", "Container runtime (optional)"),
   ("netstat", "Network diagnostics (optional)")]

/-- Critical dependencies collected into the `missing` list. -/
def criticalDeps : List String := ["git", "ansible", "ansible-playbook", "python3"]

/-- Version-probe command for one dependency. -/
def versionCmd (cmd : String) : List String :=
  if cmd != "netstat" then [cmd, "--version"] else ["echo", "installed"]

/-- Report line for one dependency (a bare `except` maps every probe failure
to "installed"). -/
def depLine (ext : ExtEnv) (cmd desc : String) : String :=
  if ext.which cmd then
    match ext.run (versionCmd cmd) (some 5) with
    | .ran r => cmd ++ ": " ++ pyStrip ((splitLines r.stdout).headD "")
    | _ => cmd ++ ": installed"
  else cmd ++ ": NOT FOUND - " ++ desc

/-- Effects of probing one dependency: a single spawn with a 5-second
timeout when the binary resolves, nothing otherwise. -/
def depEffs (ext : ExtEnv) (cmd : String) : List Effect :=
  if ext.which cmd then [Effect.spawn (versionCmd cmd) (some 5)] else []

/-- Whether one dependency is recorded as missing and critical. -/
def depMissing (ext : ExtEnv) (cmd : String) : Bool :=
  !ext.which cmd && criticalDeps.contains cmd

/-- Effect trace of the dependency loop. -/
def depsEffs (ext : ExtEnv) : List (String × String) → List Effect
  | [] => []
  | p :: rest => depEffs ext p.1 ++ depsEffs ext rest

/-- Embedding of `_check_dependencies`. The single Python loop accumulates a
report line, an effect, and a missing flag per dependency; it is modelled as
three traversals of the same list. -/
def check_dependencies (st : Bool) (fs : FS) (ext : ExtEnv) : HOut :=
  let lines := depsList.map (fun p => depLine ext p.1 p.2)
  let missing := (depsList.filter (fun p => depMissing ext p.1)).map (fun p => p.1)
  let footer :=
    if missing != [] then
      ["\nMissing critical dependencies: " ++ String.intercalate ", " missing,
       "Run \x27install_dependencies\x27 to attempt automatic installation"]
    else ["\nAll critical dependencies are installed!"]
  ⟨st, fs, depsEffs ext depsList, .ok (joinLines (lines ++ footer))⟩

/- ── Handler: install_dependencies ── -/

/-- Embedding of `_install_dependencies`: the body is `# TODO` followed by
`return ""` — no effect, no state change, empty result. -/
def install_dependencies (useSudo st : Bool) (fs : FS) (ext : ExtEnv) : HOut :=
  ⟨st, fs, [], .ok ""⟩

/- ── Recap extraction and handler: run_playbook ── -/

/-- Header entry appended to the summary whenever a line contains the
`PLAY RECAP` marker. -/
def SUMMARY_HDR : String := "\n=== DEPLOYMENT SUMMARY ==="

/-- Loop body of the recap scan of `_run_playbook`: the flag is
`recap_started`; a marker line appends the header and sets the flag, and once
the flag is set every non-blank non-marker line is appended. -/
def summarize : Bool → List String → List String
  | _, [] => []
  | started, line :: rest =>
    if pyIn "PLAY RECAP" line then SUMMARY_HDR :: summarize true rest
    else if started && nonBlank line then line :: summarize true rest
    else summarize started rest

/-- Summary extracted from the playbook stdout lines. -/
def extractSummary (lines : List String) : List String :=
  summarize false lines

/-- Command line assembled by `_run_playbook`. -/
def playbookCmd (tags limit : String) (check : Bool) : List String :=
  ["ansible-playbook", PLAYBOOK_FILE, "-i", INVENTORY_FILE, "--tags", tags]
    ++ (if limit != "all" then ["--limit", limit] else [])
    ++ (if check then ["--check"] else [])

/-- Embedding of `_run_playbook`: lifecycle gate, playbook-presence check,
then one spawn with no timeout; `except FileNotFoundError` and a catch-all
`except Exception` convert every failure to text. -/
def run_playbook (tags limit : String) (check st : Bool) (fs : FS) (ext : ExtEnv) : HOut :=
  if !st then ⟨st, fs, [], .ok NOT_INIT_MSG⟩
  else if !fs.playbookE then
    ⟨st, fs, [], .ok ("Playbook not found at " ++ PLAYBOOK_FILE)⟩
  else
    let cmd := playbookCmd tags limit check
    let effs : List Effect := [Effect.spawn cmd none]
    match ext.run cmd none with
    | .fnf =>
        ⟨st, fs, effs,
          .ok "Error: ansible-playbook not found. Please run \x27install_dependencies\x27 first"⟩
    | .timedOut m => ⟨st, fs, effs, .ok ("Error running playbook: " ++ m)⟩
    | .exc m => ⟨st, fs, effs, .ok ("Error running playbook: " ++ m)⟩
    | .ran r =>
        let summary := extractSummary (splitLines r.stdout)
        if r.exitCode == 0 then
          ⟨st, fs, effs,
            .ok ("Playbook executed successfully!\n" ++ joinLines (takeLast 10 summary))⟩
        else
          let errorInfo := if r.stderr != "" then lastChars 500 r.stderr else lastChars 500 r.stdout
          ⟨st, fs, effs,
            .ok ("Playbook failed:\n" ++ errorInfo ++ "\n" ++ joinLines summary)⟩

/- ── Handler: quick_deploy ── -/

/-- Embedding of `_quick_deploy`: lifecycle gate, script-presence check,
chmod, then one spawn with a 300-second timeout; `TimeoutExpired` and the
catch-all `except Exception` produce their own messages. -/
def quick_deploy (st : Bool) (fs : FS) (ext : ExtEnv) : HOut :=
  if !st then ⟨st, fs, [], .ok NOT_INIT_MSG⟩
  else if !fs.startupE then
    ⟨st, fs, [], .ok ("Startup script not found at " ++ STARTUP_SCRIPT)⟩
  else
    let cmd := ["bash", STARTUP_SCRIPT]
    let effs : List Effect := [Effect.chmod STARTUP_SCRIPT 493, Effect.spawn cmd (some 300)]
    match ext.run cmd (some 300) with
    | .timedOut _ =>
        ⟨st, fs, effs, .ok "Deployment timed out after 5 minutes. Services may still be starting."⟩
    | .fnf => ⟨st, fs, effs, .ok ("Error during quick deployment: " ++ FNF_MSG)⟩
    | .exc m => ⟨st, fs, effs, .ok ("Error during quick deployment: " ++ m)⟩
    | .ran r =>
        let output := lastChars 2000 r.stdout
        if pyIn "All services started" output then
          ⟨st, fs, effs, .ok ("Quick deployment completed successfully!\n" ++ output)⟩
        else
          ⟨st, fs, effs, .ok ("Quick deployment output:\n" ++ output)⟩

/- ── Handler: docker_build ── -/

/-- Embedding of `_docker_build`. -/
def docker_build (tag : String) (st : Bool) (fs : FS) (ext : ExtEnv) : HOut :=
  if !st then ⟨st, fs, [], .ok NOT_INIT_MSG⟩
  else if !fs.dockerfileE then
    ⟨st, fs, [], .ok ("Dockerfile not found at " ++ DOCKERFILE_FILE)⟩
  else
    let cmd := ["docker", "build", "-t", tag, ANSIBLE_DIR]
    let effs : List Effect := [Effect.spawn cmd none]
    match ext.run cmd none with
    | .fnf => ⟨st, fs, effs, .ok "Docker is not installed. Please install Docker first."⟩
    | .timedOut m => ⟨st, fs, effs, .ok ("Error building Docker image: " ++ m)⟩
    | .exc m => ⟨st, fs, effs, .ok ("Error building Docker image: " ++ m)⟩
    | .ran r =>
        if r.exitCode == 0 then
          ⟨st, fs, effs, .ok ("Docker image built successfully: " ++ tag)⟩
        else
          ⟨st, fs, effs, .ok ("Docker build failed:\n" ++ lastChars 1000 r.stderr)⟩

/- ── Handler: docker_run ── -/

/-- Command line assembled by `_docker_run`. -/
def dockerRunCmd (tag : String) (detach : Bool) : List String :=
  ["docker", "run", "--privileged",
   "-v", "/sys/fs/cgroup:/sys/fs/cgroup:ro", "-v", "/tmp:/tmp", "-v", "/run:/run",
   "-p", "80:80", "-p", "18000:18000", "-p", "8000:8000",
   "--name", "resilientdb-container"]
    ++ (if detach then ["-d"] else []) ++ [tag]

/-- Embedding of `_docker_run` (no lifecycle gate in the source). -/
def docker_run (tag : String) (detach st : Bool) (fs : FS) (ext : ExtEnv) : HOut :=
  let cmd := dockerRunCmd tag detach
  let effs : List Effect := [Effect.spawn cmd none]
  match ext.run cmd none with
  | .fnf => ⟨st, fs, effs, .ok "Docker is not installed. Please install Docker first."⟩
  | .timedOut m => ⟨st, fs, effs, .ok ("Error running container: " ++ m)⟩
  | .exc m => ⟨st, fs, effs, .ok ("Error running container: " ++ m)⟩
  | .ran r =>
      if r.exitCode == 0 then
        ⟨st, fs, effs,
          .ok ("Container started successfully: " ++ firstChars 12 (pyStrip r.stdout) ++
            "\nAccess services at:\n- Nginx: http://localhost" ++
            "\n- GraphQL: http://localhost:8000/graphql\n- Crow API: http://localhost:18000")⟩
      else if pyIn "already in use" r.stderr then
        ⟨st, fs, effs,
          .ok ("Container name already in use. Stop existing container first:\n" ++
            "docker stop resilientdb-container && docker rm resilientdb-container")⟩
      else
        ⟨st, fs, effs, .ok ("Failed to start container:\n" ++ lastChars 500 r.stderr)⟩

/- ── Service management handlers ── -/

/-- Service list shared by `_check_services` and `_restart_service("all")`. -/
def servicesList : List String :=
  ["nginx", "crow-http", "graphql", "resilientdb-client",
   "resilientdb-kv@1", "resilientdb-kv@2", "resilientdb-kv@3", "resilientdb-kv@4"]

/-- Status line for one service in `_check_services` (any exception yields
the error-checking line). -/
def svcStatusLine (ext : ExtEnv) (svc : String) : String :=
  match ext.run ["systemctl", "is-active", svc] none with
  | .ran r =>
      let status := pyStrip r.stdout
      (if status == "active" then "✓" else "✗") ++ " " ++ svc ++ ": " ++ status
  | _ => "? " ++ svc ++ ": error checking"

/-- Effect trace of running one systemctl verb over a list of services. -/
def svcEffs (verb : String) (svcs : List String) : List Effect :=
  svcs.map (fun svc => Effect.spawn ["systemctl", verb, svc] none)

/-- Embedding of `_check_services`. -/
def check_services (st : Bool) (fs : FS) (ext : ExtEnv) : HOut :=
  ⟨st, fs, svcEffs "is-active" servicesList,
    .ok ("Service Status:\n" ++ joinLines (servicesList.map (svcStatusLine ext)))⟩

/-- Per-service line of the `_restart_service("all")` loop: the run is not
checked for its exit code, and a bare `except` yields the failure line. -/
def restartAllLine (ext : ExtEnv) (svc : String) : String :=
  match ext.run ["systemctl", "restart", svc] none with
  | .ran _ => "Restarted " ++ svc
  | _ => "Failed to restart " ++ svc

/-- Embedding of `_restart_service`. -/
def restart_service (service : String) (st : Bool) (fs : FS) (ext : ExtEnv) : HOut :=
  if service == "all" then
    ⟨st, fs, svcEffs "restart" servicesList,
      .ok (joinLines (servicesList.map (restartAllLine ext)))⟩
  else
    let cmd := ["systemctl", "restart", service]
    let effs : List Effect := [Effect.spawn cmd none]
    match ext.run cmd none with
    | .fnf => ⟨st, fs, effs, .ok ("Error restarting service: " ++ FNF_MSG)⟩
    | .timedOut m => ⟨st, fs, effs, .ok ("Error restarting service: " ++ m)⟩
    | .exc m => ⟨st, fs, effs, .ok ("Error restarting service: " ++ m)⟩
    | .ran r =>
        if r.exitCode == 0 then
          ⟨st, fs, effs, .ok ("Service " ++ service ++ " restarted successfully")⟩
        else
          ⟨st, fs, effs, .ok ("Error restarting " ++ service ++ ": " ++ r.stderr)⟩

/-- Embedding of `_view_logs`. -/
def view_logs (service : String) (lines : Int) (st : Bool) (fs : FS) (ext : ExtEnv) : HOut :=
  let cmd := ["journalctl", "-u", service, "-n", toString lines, "--no-pager"]
  let effs : List Effect := [Effect.spawn cmd none]
  match ext.run cmd none with
  | .fnf => ⟨st, fs, effs, .ok ("Error viewing logs: " ++ FNF_MSG)⟩
  | .timedOut m => ⟨st, fs, effs, .ok ("Error viewing logs: " ++ m)⟩
  | .exc m => ⟨st, fs, effs, .ok ("Error viewing logs: " ++ m)⟩
  | .ran r =>
      if r.exitCode == 0 then
        ⟨st, fs, effs,
          .ok ("=== Last " ++ toString lines ++ " lines of " ++ service ++ " logs ===\n" ++
            r.stdout)⟩
      else
        ⟨st, fs, effs, .ok ("Error fetching logs: " ++ r.stderr)⟩

/- ── HTTP relay handlers ── -/

/-- Embedding of `_commit_transaction`. -/
def commit_transaction (txId value : String) (st : Bool) (fs : FS) (ext : ExtEnv) : HOut :=
  let url := CROW_BASE_URL ++ "/v1/transactions/commit"
  let effs : List Effect := [Effect.httpPost url]
  match ext.httpPostR url [("id", txId), ("value", value)] with
  | .exc m => ⟨st, fs, effs, .ok ("Error committing transaction: " ++ m)⟩
  | .resp status body =>
      ⟨st, fs, effs,
        .ok ("Transaction committed (status " ++ toString status ++ "):\n" ++ body)⟩

/-- Embedding of `_get_transaction`. -/
def get_transaction (txId : String) (st : Bool) (fs : FS) (ext : ExtEnv) : HOut :=
  let url := CROW_BASE_URL ++ "/v1/transactions/" ++ txId
  let effs : List Effect := [Effect.httpGet url]
  match ext.httpGetR url with
  | .exc m => ⟨st, fs, effs, .ok ("Error fetching transaction: " ++ m)⟩
  | .resp status body =>
      ⟨st, fs, effs, .ok ("Transaction data (status " ++ toString status ++ "):\n" ++ body)⟩

/-- Embedding of `_graphql_query`. -/
def graphql_query (query : String) (gqlVars : Arg) (st : Bool) (fs : FS) (ext : ExtEnv) : HOut :=
  let effs : List Effect := [Effect.httpPost GRAPHQL_URL]
  match ext.gqlPostR query with
  | .exc m => ⟨st, fs, effs, .ok ("Error executing GraphQL query: " ++ m)⟩
  | .json dump => ⟨st, fs, effs, .ok ("GraphQL Response:\n" ++ dump)⟩

/- ── Handler: check_ports ── -/

/-- Ports considered relevant in `_check_ports`. -/
def relevantPorts : List String :=
  ["80", "8000", "18000", "10001", "10002", "10003", "10004", "10005"]

/-- Line filter of `_check_ports`: keep lines containing any relevant port
preceded by a colon. -/
def portFilter (lines : List String) : List String :=
  lines.filter (fun line => relevantPorts.any (fun port => pyIn (":" ++ port) line))

/-- Embedding of `_check_ports` (falls back to `ss` when `netstat` is absent;
an inner bare `except` covers every `ss` failure). -/
def check_ports (st : Bool) (fs : FS) (ext : ExtEnv) : HOut :=
  let cmd := ["netstat", "-tlnp"]
  match ext.run cmd none with
  | .fnf =>
      let cmd2 := ["ss", "-tlnp"]
      let effs : List Effect := [Effect.spawn cmd none, Effect.spawn cmd2 none]
      match ext.run cmd2 none with
      | .ran r => ⟨st, fs, effs, .ok ("Listening sockets:\n" ++ r.stdout)⟩
      | _ => ⟨st, fs, effs, .ok "Neither netstat nor ss available for port checking"⟩
  | .timedOut m => ⟨st, fs, [Effect.spawn cmd none], .ok ("Error checking ports: " ++ m)⟩
  | .exc m => ⟨st, fs, [Effect.spawn cmd none], .ok ("Error checking ports: " ++ m)⟩
  | .ran r =>
      let filtered := portFilter (splitLines r.stdout)
      if filtered != [] then
        ⟨st, fs, [Effect.spawn cmd none], .ok ("Listening ports:\n" ++ joinLines filtered)⟩
      else
        ⟨st, fs, [Effect.spawn cmd none], .ok "No ResilientDB-related ports found listening"⟩

/- ── Configuration handlers ── -/

/-- Always-included keys of the component filter in `_view_config`. -/
def alwaysKeys : List String := ["components", "bazel_version", "java_home_map"]

/-- Key predicate of the `_view_config` loop: the component name occurs
case-insensitively in the key, or the key is always included. -/
def relevantKey (component k : String) : Bool :=
  pyIn (pyLower component) (pyLower k) || alwaysKeys.contains k

/-- Subset of the configuration selected for a component (the
`relevant_keys` / `filtered_config` computation of `_view_config`). -/
def filterByComponent (cfg : List (String × YVal)) (component : String) : List (String × YVal) :=
  cfg.filter (fun p => relevantKey component p.1)

/-- Abstract rendering of `yaml.dump`: one `key: value` line per entry. Key
order and YAML scalar formatting are not modelled; no claim depends on the
rendering. -/
def yamlDump (cfg : List (String × YVal)) : String :=
  joinLines (cfg.map (fun p => p.1 ++ ": " ++ yvalStr p.2))

/-- Text returned by `_view_config` for a specific component. -/
def viewComponentText (component : String) (cfg : List (String × YVal)) : String :=
  if filterByComponent cfg component != [] then
    "Configuration for " ++ component ++ ":\n" ++ yamlDump (filterByComponent cfg component)
  else
    "No configuration found for component: " ++ component

/-- Embedding of `_view_config`: lifecycle gate, file-presence check, load
(malformed content is caught by `except Exception`), then either the full
dump or the component filter. -/
def view_config (component : String) (st : Bool) (fs : FS) (ext : ExtEnv) : HOut :=
  if !st then ⟨st, fs, [], .ok NOT_INIT_MSG⟩
  else
    match fs.configFile with
    | none => ⟨st, fs, [], .ok ("Configuration file not found at " ++ CONFIG_FILE)⟩
    | some (.malformed m) =>
        ⟨st, fs, [Effect.readFile CONFIG_FILE], .ok ("Error reading configuration: " ++ m)⟩
    | some (.doc cfg) =>
        if component == "all" then
          ⟨st, fs, [Effect.readFile CONFIG_FILE], .ok ("Full configuration:\n" ++ yamlDump cfg)⟩
        else
          ⟨st, fs, [Effect.readFile CONFIG_FILE], .ok (viewComponentText component cfg)⟩

/-- Type coercion of `_update_config`: all-digit strings become integers,
case-insensitive `true`/`false` becomes a boolean, everything else stays a
string. -/
def coerceValue (value : String) : YVal :=
  if pyIsDigit value then .i (Int.ofNat (digitsToNat value))
  else if pyLower value == "true" || pyLower value == "false" then .b (pyLower value == "true")
  else .s value

/-- Python `config[key] = value` on the ordered mapping: overwrite in place
when the key exists, append otherwise. -/
def setKey (cfg : List (String × YVal)) (k : String) (v : YVal) : List (String × YVal) :=
  if cfg.any (fun p => p.1 == k) then
    cfg.map (fun p => if p.1 == k then (k, v) else p)
  else cfg ++ [(k, v)]

/-- Embedding of `_update_config`: lifecycle gate, then read-coerce-write
under a catch-all `except Exception` (a missing or malformed file becomes an
error message). -/
def update_config (key value : String) (st : Bool) (fs : FS) (ext : ExtEnv) : HOut :=
  if !st then ⟨st, fs, [], .ok NOT_INIT_MSG⟩
  else
    match fs.configFile with
    | none =>
        ⟨st, fs, [Effect.readFile CONFIG_FILE], .ok ("Error updating configuration: " ++ FNF_MSG)⟩
    | some (.malformed m) =>
        ⟨st, fs, [Effect.readFile CONFIG_FILE], .ok ("Error updating configuration: " ++ m)⟩
    | some (.doc cfg) =>
        let v := coerceValue value
        let cfg2 := setKey cfg key v
        ⟨st, { fs with configFile := some (.doc cfg2) },
          [Effect.readFile CONFIG_FILE, Effect.writeFile CONFIG_FILE cfg2],
          .ok ("Updated " ++ key ++ " = " ++ yvalStr v ++ " in configuration")⟩

/- ── Tool catalog and dispatcher ── -/

/-- Names of the catalog advertised by `list_tools`, in declaration order. -/
def catalogNames : List String :=
  ["initialize_environment", "check_dependencies", "install_dependencies",
   "run_playbook", "quick_deploy", "docker_build", "docker_run",
   "check_services", "restart_service", "view_logs",
   "commit_transaction", "get_transaction", "graphql_query",
   "check_ports", "view_config", "update_config"]

/-- Embedding of the `call_tool` dispatcher: the if/elif chain of the source,
with `arguments.get` for optional fields and `arguments[...]` (a possible
`KeyError`) for required ones. The source has no try/except around the
chain. -/
def call_tool (name : String) (args : Args) (st : Bool) (fs : FS) (ext : ExtEnv) : HOut :=
  if name == "initialize_environment" then
    initialize_environment (argGet args "force" (.bool false)).truthy st fs ext
  else if name == "check_dependencies" then check_dependencies st fs ext
  else if name == "install_dependencies" then
    install_dependencies (argGet args "use_sudo" (.bool true)).truthy st fs ext
  else if name == "run_playbook" then
    run_playbook (argGet args "tags" (.str "all")).asStr (argGet args "limit" (.str "all")).asStr
      (argGet args "check" (.bool false)).truthy st fs ext
  else if name == "quick_deploy" then quick_deploy st fs ext
  else if name == "docker_build" then
    docker_build (argGet args "tag" (.str "resilientdb-ansible:latest")).asStr st fs ext
  else if name == "docker_run" then
    docker_run (argGet args "tag" (.str "resilientdb-ansible:latest")).asStr
      (argGet args "detach" (.bool true)).truthy st fs ext
  else if name == "check_services" then check_services st fs ext
  else if name == "restart_service" then
    match argLookup args "service" with
    | none => ⟨st, fs, [], .error (.keyError "service")⟩
    | some v => restart_service v.asStr st fs ext
  else if name == "view_logs" then
    match argLookup args "service" with
    | none => ⟨st, fs, [], .error (.keyError "service")⟩
    | some v => view_logs v.asStr (argGet args "lines" (.int 50)).asInt st fs ext
  else if name == "commit_transaction" then
    match argLookup args "transaction_id" with
    | none => ⟨st, fs, [], .error (.keyError "transaction_id")⟩
    | some t =>
      match argLookup args "value" with
      | none => ⟨st, fs, [], .error (.keyError "value")⟩
      | some v => commit_transaction t.asStr v.asStr st fs ext
  else if name == "get_transaction" then
    match argLookup args "transaction_id" with
    | none => ⟨st, fs, [], .error (.keyError "transaction_id")⟩
    | some t => get_transaction t.asStr st fs ext
  else if name == "graphql_query" then
    match argLookup args "query" with
    | none => ⟨st, fs, [], .error (.keyError "query")⟩
    | some q => graphql_query q.asStr (argGet args "variables" .dict) st fs ext
  else if name == "check_ports" then check_ports st fs ext
  else if name == "view_config" then
    match argLookup args "component" with
    | none => ⟨st, fs, [], .error (.keyError "component")⟩
    | some c => view_config c.asStr st fs ext
  else if name == "update_config" then
    match argLookup args "key" with
    | none => ⟨st, fs, [], .error (.keyError "key")⟩
    | some k =>
      match argLookup args "value" with
      | none => ⟨st, fs, [], .error (.keyError "value")⟩
      | some v => update_config k.asStr v.asStr st fs ext
  else ⟨st, fs, [], .ok ("Unknown tool: " ++ name)⟩

/- ── Auxiliary definitions used by the statements ── -/

/-- Whether every argument the schema marks required for the named tool is
present in the argument mapping (tools without required arguments need
nothing). -/
def requiredPresent (name : String) (args : Args) : Bool :=
  if name == "restart_service" then (argLookup args "service").isSome
  else if name == "view_logs" then (argLookup args "service").isSome
  else if name == "commit_transaction" then
    (argLookup args "transaction_id").isSome && (argLookup args "value").isSome
  else if name == "get_transaction" then (argLookup args "transaction_id").isSome
  else if name == "graphql_query" then (argLookup args "query").isSome
  else if name == "view_config" then (argLookup args "component").isSome
  else if name == "update_config" then
    (argLookup args "key").isSome && (argLookup args "value").isSome
  else true

/-- Whether the clone subprocess outcome is one the source handles
(`FileNotFoundError` or a completed run); any other exception escapes the
`except FileNotFoundError` guard of `_initialize_environment`. -/
def cloneBenign (ext : ExtEnv) : Bool :=
  match ext.run cloneCmd none with
  | .timedOut _ => false
  | .exc _ => false
  | _ => true

/-- Timeouts of the process spawns recorded in an effect trace. -/
def spawnTimeouts (effs : List Effect) : List (Option Nat) :=
  effs.filterMap (fun e => match e with | .spawn _ t => some t | _ => none)

/- ── Concrete fixtures for witnesses and counterexamples ── -/

/-- Empty filesystem: nothing materialized. -/
def fs0 : FS := ⟨false, false, false, false, false, false, none⟩

/-- Filesystem with the deployment directory and all key artifacts present
and no configuration file. -/
def fsFull : FS := ⟨true, true, true, true, true, true, none⟩

/-- Filesystem with a small configuration document. -/
def fsCfg : FS :=
  { fsFull with configFile := some (.doc [("crow_port", .i 18000), ("nginx_port", .i 80)]) }

/-- Sample configuration document for the component filter. -/
def cfgG : List (String × YVal) :=
  [("graphql_port", .i 8000), ("crow_port", .i 18000), ("components", .s "all")]

/-- Filesystem carrying the sample configuration document. -/
def fsG : FS := { fsFull with configFile := some (.doc cfgG) }

/-- Environment where nothing is installed and the network is down. -/
def ext0 : ExtEnv :=
  ⟨fun _ => false, fun _ _ => .fnf, fs0,
   fun _ _ => .exc "connection refused", fun _ => .exc "connection refused",
   fun _ => .exc "connection refused"⟩

/-- Environment whose every process run completes with exit code 1 (a failing
clone). -/
def extCloneFail : ExtEnv :=
  { which := fun _ => false,
    run := fun _ _ => .ran ⟨1, "", "fatal: could not read from remote repository"⟩,
    clonePost := fs0,
    httpPostR := fun _ _ => .exc "connection refused",
    httpGetR := fun _ => .exc "connection refused",
    gqlPostR := fun _ => .exc "connection refused" }

/-- Environment where only git resolves and its version probe succeeds. -/
def extGit : ExtEnv :=
  { which := fun c => c == "git",
    run := fun _ _ => .ran ⟨0, "git version 2.39.2", ""⟩,
    clonePost := fs0,
    httpPostR := fun _ _ => .exc "connection refused",
    httpGetR := fun _ => .exc "connection refused",
    gqlPostR := fun _ => .exc "connection refused" }

/-- Environment whose every process run yields a small playbook transcript
with a recap section. -/
def extPlay : ExtEnv :=
  { ext0 with run := fun _ _ => .ran ⟨0, "ok: [node1]\nPLAY RECAP ****\nnode1 : ok=3\n\ndone", ""⟩ }

/- ── Helper lemmas ── -/

lemma init_env_res_isOk (f st : Bool) (fs : FS) (ext : ExtEnv)
    (h : cloneBenign ext = true) :
    (initialize_environment f st fs ext).res.isOk = true := by
  unfold initialize_environment
  dsimp only
  split
  · rfl
  · unfold cloneBenign at h
    cases hrun : ext.run cloneCmd none <;> simp only [hrun] at h ⊢
    · rfl
    · exact absurd h (by decide)
    · exact absurd h (by decide)
    · split
      all_goals rfl

lemma check_dependencies_res_isOk (st : Bool) (fs : FS) (ext : ExtEnv) :
    (check_dependencies st fs ext).res.isOk = true := rfl

lemma run_playbook_res_isOk (tags limit : String) (check st : Bool) (fs : FS)
    (ext : ExtEnv) : (run_playbook tags limit check st fs ext).res.isOk = true := by
  unfold run_playbook
  dsimp only
  repeat' split
  all_goals rfl

lemma quick_deploy_res_isOk (st : Bool) (fs : FS) (ext : ExtEnv) :
    (quick_deploy st fs ext).res.isOk = true := by
  unfold quick_deploy
  dsimp only
  repeat' split
  all_goals rfl

lemma docker_build_res_isOk (tag : String) (st : Bool) (fs : FS) (ext : ExtEnv) :
    (docker_build tag st fs ext).res.isOk = true := by
  unfold docker_build
  dsimp only
  repeat' split
  all_goals rfl

lemma docker_run_res_isOk (tag : String) (detach st : Bool) (fs : FS) (ext : ExtEnv) :
    (docker_run tag detach st fs ext).res.isOk = true := by
  unfold docker_run
  dsimp only
  repeat' split
  all_goals rfl

lemma restart_service_res_isOk (service : String) (st : Bool) (fs : FS) (ext : ExtEnv) :
    (restart_service service st fs ext).res.isOk = true := by
  unfold restart_service
  dsimp only
  repeat' split
  all_goals rfl

lemma view_logs_res_isOk (service : String) (n : Int) (st : Bool) (fs : FS)
    (ext : ExtEnv) : (view_logs service n st fs ext).res.isOk = true := by
  unfold view_logs
  dsimp only
  repeat' split
  all_goals rfl

lemma commit_transaction_res_isOk (a b : String) (st : Bool) (fs : FS) (ext : ExtEnv) :
    (commit_transaction a b st fs ext).res.isOk = true := by
  unfold commit_transaction
  dsimp only
  repeat' split
  all_goals rfl

lemma get_transaction_res_isOk (a : String) (st : Bool) (fs : FS) (ext : ExtEnv) :
    (get_transaction a st fs ext).res.isOk = true := by
  unfold get_transaction
  dsimp only
  repeat' split
  all_goals rfl

lemma graphql_query_res_isOk (q : String) (v : Arg) (st : Bool) (fs : FS) (ext : ExtEnv) :
    (graphql_query q v st fs ext).res.isOk = true := by
  unfold graphql_query
  dsimp only
  repeat' split
  all_goals rfl

lemma check_ports_res_isOk (st : Bool) (fs : FS) (ext : ExtEnv) :
    (check_ports st fs ext).res.isOk = true := by
  unfold check_ports
  dsimp only
  repeat' split
  all_goals rfl

lemma view_config_res_isOk (c : String) (st : Bool) (fs : FS) (ext : ExtEnv) :
    (view_config c st fs ext).res.isOk = true := by
  unfold view_config
  repeat' split
  all_goals rfl

lemma update_config_res_isOk (k v : String) (st : Bool) (fs : FS) (ext : ExtEnv) :
    (update_config k v st fs ext).res.isOk = true := by
  unfold update_config
  dsimp only
  repeat' split
  all_goals rfl

lemma check_services_res_isOk (st : Bool) (fs : FS) (ext : ExtEnv) :
    (check_services st fs ext).res.isOk = true := rfl

lemma install_dependencies_res_isOk (u st : Bool) (fs : FS) (ext : ExtEnv) :
    (install_dependencies u st fs ext).res.isOk = true := rfl

lemma call_tool_unknown_eq (name : String) (args : Args) (st : Bool) (fs : FS)
    (ext : ExtEnv) (h : name ∉ catalogNames) :
    call_tool name args st fs ext = ⟨st, fs, [], .ok ("Unknown tool: " ++ name)⟩ := by
  simp only [catalogNames, List.mem_cons, List.not_mem_nil, or_false, not_or] at h
  obtain ⟨h1, h2, h3, h4, h5, h6, h7, h8, h9, h10, h11, h12, h13, h14, h15, h16⟩ := h
  simp [call_tool, h1, h2, h3, h4, h5, h6, h7, h8, h9, h10, h11, h12, h13, h14, h15, h16]

lemma spawnTimeouts_depsEffs (ext : ExtEnv) (l : List (String × String)) (t : Option Nat)
    (h : t ∈ spawnTimeouts (depsEffs ext l)) : t = some 5 := by
  induction l with
  | nil => simp [depsEffs, spawnTimeouts] at h
  | cons p rest ih =>
    simp only [depsEffs, spawnTimeouts, List.filterMap_append] at h ih
    rcases List.mem_append.1 h with hl | hr
    · unfold depEffs at hl
      split at hl
      all_goals simp [spawnTimeouts] at hl
      first | exact hl | exact hl.symm
    · exact ih hr

lemma spawnTimeouts_svcEffs (verb : String) (svcs : List String) (t : Option Nat)
    (h : t ∈ spawnTimeouts (svcEffs verb svcs)) : t = none := by
  induction svcs with
  | nil => simp [svcEffs, spawnTimeouts] at h
  | cons a rest ih =>
    simp only [svcEffs, spawnTimeouts, List.map_cons, List.filterMap_cons] at h ih
    simp only [List.mem_cons] at h
    rcases h with h | h
    · exact h
    · exact ih h

lemma quick_deploy_timeouts (st : Bool) (fs : FS) (ext : ExtEnv) (t : Option Nat)
    (h : t ∈ spawnTimeouts (quick_deploy st fs ext).effs) : t = some 300 := by
  unfold quick_deploy at h
  dsimp only at h
  repeat' split at h
  all_goals simp [spawnTimeouts] at h
  all_goals first | exact h | exact h.symm

lemma init_env_timeouts (f st : Bool) (fs : FS) (ext : ExtEnv) (t : Option Nat)
    (h : t ∈ spawnTimeouts (initialize_environment f st fs ext).effs) : t = none := by
  unfold initialize_environment at h
  dsimp only at h
  repeat' split at h
  all_goals simp [spawnTimeouts] at h
  all_goals exact h

lemma run_playbook_timeouts (tags limit : String) (check st : Bool) (fs : FS) (ext : ExtEnv)
    (t : Option Nat) (h : t ∈ spawnTimeouts (run_playbook tags limit check st fs ext).effs) :
    t = none := by
  unfold run_playbook at h
  dsimp only at h
  repeat' split at h
  all_goals simp [spawnTimeouts] at h
  all_goals exact h

lemma docker_build_timeouts (tag : String) (st : Bool) (fs : FS) (ext : ExtEnv)
    (t : Option Nat) (h : t ∈ spawnTimeouts (docker_build tag st fs ext).effs) : t = none := by
  unfold docker_build at h
  dsimp only at h
  repeat' split at h
  all_goals simp [spawnTimeouts] at h
  all_goals exact h

lemma docker_run_timeouts (tag : String) (detach st : Bool) (fs : FS) (ext : ExtEnv)
    (t : Option Nat) (h : t ∈ spawnTimeouts (docker_run tag detach st fs ext).effs) :
    t = none := by
  unfold docker_run at h
  dsimp only at h
  repeat' split at h
  all_goals simp [spawnTimeouts] at h
  all_goals exact h

lemma check_services_timeouts (st : Bool) (fs : FS) (ext : ExtEnv) (t : Option Nat)
    (h : t ∈ spawnTimeouts (check_services st fs ext).effs) : t = none :=
  spawnTimeouts_svcEffs "is-active" servicesList t h

lemma restart_service_timeouts (service : String) (st : Bool) (fs : FS) (ext : ExtEnv)
    (t : Option Nat) (h : t ∈ spawnTimeouts (restart_service service st fs ext).effs) :
    t = none := by
  unfold restart_service at h
  dsimp only at h
  split at h
  · exact spawnTimeouts_svcEffs _ _ _ h
  · repeat' split at h
    all_goals simp [spawnTimeouts] at h
    all_goals exact h

lemma view_logs_timeouts (service : String) (n : Int) (st : Bool) (fs : FS) (ext : ExtEnv)
    (t : Option Nat) (h : t ∈ spawnTimeouts (view_logs service n st fs ext).effs) : t = none := by
  unfold view_logs at h
  dsimp only at h
  repeat' split at h
  all_goals simp [spawnTimeouts] at h
  all_goals exact h

lemma commit_transaction_timeouts (a b : String) (st : Bool) (fs : FS) (ext : ExtEnv)
    (t : Option Nat) (h : t ∈ spawnTimeouts (commit_transaction a b st fs ext).effs) :
    t = none := by
  unfold commit_transaction at h
  dsimp only at h
  repeat' split at h
  all_goals simp [spawnTimeouts] at h

lemma get_transaction_timeouts (a : String) (st : Bool) (fs : FS) (ext : ExtEnv)
    (t : Option Nat) (h : t ∈ spawnTimeouts (get_transaction a st fs ext).effs) : t = none := by
  unfold get_transaction at h
  dsimp only at h
  repeat' split at h
  all_goals simp [spawnTimeouts] at h

lemma graphql_query_timeouts (q : String) (v : Arg) (st : Bool) (fs : FS) (ext : ExtEnv)
    (t : Option Nat) (h : t ∈ spawnTimeouts (graphql_query q v st fs ext).effs) : t = none := by
  unfold graphql_query at h
  dsimp only at h
  repeat' split at h
  all_goals simp [spawnTimeouts] at h

lemma check_ports_timeouts (st : Bool) (fs : FS) (ext : ExtEnv) (t : Option Nat)
    (h : t ∈ spawnTimeouts (check_ports st fs ext).effs) : t = none := by
  unfold check_ports at h
  dsimp only at h
  repeat' split at h
  all_goals simp [spawnTimeouts] at h
  all_goals first | exact h | (rcases h with h | h <;> exact h)

lemma view_config_timeouts (c : String) (st : Bool) (fs : FS) (ext : ExtEnv) (t : Option Nat)
    (h : t ∈ spawnTimeouts (view_config c st fs ext).effs) : t = none := by
  unfold view_config at h
  repeat' split at h
  all_goals simp [spawnTimeouts] at h

lemma update_config_timeouts (k v : String) (st : Bool) (fs : FS) (ext : ExtEnv) (t : Option Nat)
    (h : t ∈ spawnTimeouts (update_config k v st fs ext).effs) : t = none := by
  unfold update_config at h
  dsimp only at h
  repeat' split at h
  all_goals simp [spawnTimeouts] at h

lemma digit_lowerChar (c : Char) (h : isDigitChar c = true) : lowerChar c = c := by
  unfold isDigitChar at h
  simp only [Bool.and_eq_true, decide_eq_true_eq] at h
  unfold lowerChar
  rw [if_neg]
  simp only [Bool.and_eq_true, decide_eq_true_eq, not_and]
  intro hA
  exact absurd (le_trans hA h.2) (by decide)

lemma digits_lower_ne (value : String) (hd : pyIsDigit value = true) (w : List Char)
    (hw : w ≠ []) (hwd : isDigitChar (w.headD 'x') = false) :
    pyLower value ≠ (⟨w⟩ : String) := by
  intro h
  have hdata : value.data.map lowerChar = w := congrArg String.data h
  simp only [pyIsDigit, Bool.and_eq_true, List.all_eq_true] at hd
  cases hv : value.data with
  | nil =>
    rw [hv] at hdata
    exact hw hdata.symm
  | cons a l =>
    rw [hv] at hdata
    have ha : isDigitChar a = true := hd.2 a (by rw [hv]; exact List.mem_cons_self a l)
    have : lowerChar a = w.headD 'x' := by
      cases w with
      | nil => simp at hdata
      | cons b wt => simpa using congrArg (fun x => x.headD 'x') hdata
    rw [digit_lowerChar a ha] at this
    rw [this] at ha
    rw [ha] at hwd
    exact Bool.noConfusion hwd

lemma coerce_of_digits (value : String) (h : pyIsDigit value = true) :
    coerceValue value = .i (Int.ofNat (digitsToNat value)) := by
  simp [coerceValue, h]

lemma coerce_of_true (value : String) (h : pyLower value = "true") :
    coerceValue value = .b true := by
  have hd : pyIsDigit value = false := by
    cases hq : pyIsDigit value
    · rfl
    · exact absurd h (digits_lower_ne value hq "true".data (by decide) (by decide))
  simp [coerceValue, hd, h]

lemma coerce_of_false (value : String) (h : pyLower value = "false") :
    coerceValue value = .b false := by
  have hd : pyIsDigit value = false := by
    cases hq : pyIsDigit value
    · rfl
    · exact absurd h (digits_lower_ne value hq "false".data (by decide) (by decide))
  simp [coerceValue, hd, h]

lemma coerce_of_other (value : String) (h1 : pyIsDigit value = false)
    (h2 : pyLower value ≠ "true") (h3 : pyLower value ≠ "false") :
    coerceValue value = .s value := by
  simp [coerceValue, h1, h2, h3]

lemma mem_map_fst_filter (p : String → Bool) (l : List (String × YVal)) (k : String) :
    k ∈ (l.filter (fun q => p q.1)).map Prod.fst ↔ k ∈ l.map Prod.fst ∧ p k = true := by
  constructor
  · intro h
    rcases List.mem_map.1 h with ⟨q, hq, rfl⟩
    rcases List.mem_filter.1 hq with ⟨hql, hqp⟩
    exact ⟨List.mem_map.2 ⟨q, hql, rfl⟩, hqp⟩
  · rintro ⟨h, hpk⟩
    rcases List.mem_map.1 h with ⟨q, hq, rfl⟩
    exact List.mem_map.2 ⟨q, List.mem_filter.2 ⟨hq, hpk⟩, rfl⟩

lemma summarize_append_no_marker (pre rest : List String)
    (h : ∀ l ∈ pre, pyIn "PLAY RECAP" l = false) :
    summarize false (pre ++ rest) = summarize false rest := by
  induction pre with
  | nil => rfl
  | cons a t ih =>
    have ha := h a (List.mem_cons_self a t)
    simp [summarize, ha]
    exact ih (fun l hl => h l (List.mem_cons_of_mem a hl))

lemma summarize_true_no_marker (post : List String)
    (h : ∀ l ∈ post, pyIn "PLAY RECAP" l = false) :
    summarize true post = post.filter nonBlank := by
  induction post with
  | nil => rfl
  | cons a t ih =>
    have ha := h a (List.mem_cons_self a t)
    have iht := ih (fun l hl => h l (List.mem_cons_of_mem a hl))
    by_cases nb : nonBlank a = true
    · simp [summarize, ha, nb, List.filter_cons, iht]
    · simp only [Bool.not_eq_true] at nb
      simp [summarize, ha, nb, List.filter_cons, iht]

/- ── Claim C1 ── -/

/-- Claim C1, counterexample: the dispatcher is not exception-safe. Invoking
the cataloged tool restart_service with no arguments makes `call_tool` raise
a `KeyError` for the required argument service instead of returning a
textual result. -/
theorem dispatch_missing_required_arg_raises :
    "restart_service" ∈ catalogNames ∧
    call_tool "restart_service" [] false fs0 ext0 =
      ⟨false, fs0, [], .error (.keyError "service")⟩ :=
  ⟨by decide, rfl⟩

/-- Claim C1, amended: handler-internal failures are converted to text by the
per-handler try/except blocks, but the required-argument lookups in the
dispatcher itself are unguarded. For every cataloged or unknown tool name,
`call_tool` returns a textual result provided every required argument is
present and, for initialize_environment, the clone subprocess does not raise
an exception outside its `except FileNotFoundError` guard. -/
theorem call_tool_ok_with_required_args (name : String) (args : Args) (st : Bool) (fs : FS)
    (ext : ExtEnv) (hreq : requiredPresent name args = true)
    (hclone : name = "initialize_environment" → cloneBenign ext = true) :
    (call_tool name args st fs ext).res.isOk = true := by
  by_cases h1 : name = "initialize_environment"
  · subst h1; exact init_env_res_isOk _ _ _ _ (hclone rfl)
  by_cases h2 : name = "check_dependencies"
  · subst h2; rfl
  by_cases h3 : name = "install_dependencies"
  · subst h3; rfl
  by_cases h4 : name = "run_playbook"
  · subst h4; exact run_playbook_res_isOk _ _ _ _ _ _
  by_cases h5 : name = "quick_deploy"
  · subst h5; exact quick_deploy_res_isOk _ _ _
  by_cases h6 : name = "docker_build"
  · subst h6; exact docker_build_res_isOk _ _ _ _
  by_cases h7 : name = "docker_run"
  · subst h7; exact docker_run_res_isOk _ _ _ _ _
  by_cases h8 : name = "check_services"
  · subst h8; rfl
  by_cases h9 : name = "restart_service"
  · subst h9
    rcases hs : argLookup args "service" with _ | v
    · simp [requiredPresent, hs] at hreq
    · have he : call_tool "restart_service" args st fs ext = restart_service v.asStr st fs ext := by
        show (match argLookup args "service" with
          | none => (⟨st, fs, [], .error (.keyError "service")⟩ : HOut)
          | some v => restart_service v.asStr st fs ext) = _
        rw [hs]
      rw [he]; exact restart_service_res_isOk _ _ _ _
  by_cases h10 : name = "view_logs"
  · subst h10
    rcases hs : argLookup args "service" with _ | v
    · simp [requiredPresent, hs] at hreq
    · have he : call_tool "view_logs" args st fs ext =
          view_logs v.asStr (argGet args "lines" (.int 50)).asInt st fs ext := by
        show (match argLookup args "service" with
          | none => (⟨st, fs, [], .error (.keyError "service")⟩ : HOut)
          | some v => view_logs v.asStr (argGet args "lines" (.int 50)).asInt st fs ext) = _
        rw [hs]
      rw [he]; exact view_logs_res_isOk _ _ _ _ _
  by_cases h11 : name = "commit_transaction"
  · subst h11
    rcases ht : argLookup args "transaction_id" with _ | t
    · simp [requiredPresent, ht] at hreq
    rcases hv : argLookup args "value" with _ | v
    · simp [requiredPresent, hv] at hreq
    have he : call_tool "commit_transaction" args st fs ext =
        commit_transaction t.asStr v.asStr st fs ext := by
      show (match argLookup args "transaction_id" with
        | none => (⟨st, fs, [], .error (.keyError "transaction_id")⟩ : HOut)
        | some t =>
          match argLookup args "value" with
          | none => (⟨st, fs, [], .error (.keyError "value")⟩ : HOut)
          | some v => commit_transaction t.asStr v.asStr st fs ext) = _
      rw [ht, hv]
    rw [he]; exact commit_transaction_res_isOk _ _ _ _ _
  by_cases h12 : name = "get_transaction"
  · subst h12
    rcases ht : argLookup args "transaction_id" with _ | t
    · simp [requiredPresent, ht] at hreq
    have he : call_tool "get_transaction" args st fs ext = get_transaction t.asStr st fs ext := by
      show (match argLookup args "transaction_id" with
        | none => (⟨st, fs, [], .error (.keyError "transaction_id")⟩ : HOut)
        | some t => get_transaction t.asStr st fs ext) = _
      rw [ht]
    rw [he]; exact get_transaction_res_isOk _ _ _ _
  by_cases h13 : name = "graphql_query"
  · subst h13
    rcases hq : argLookup args "query" with _ | q
    · simp [requiredPresent, hq] at hreq
    have he : call_tool "graphql_query" args st fs ext =
        graphql_query q.asStr (argGet args "variables" .dict) st fs ext := by
      show (match argLookup args "query" with
        | none => (⟨st, fs, [], .error (.keyError "query")⟩ : HOut)
        | some q => graphql_query q.asStr (argGet args "variables" .dict) st fs ext) = _
      rw [hq]
    rw [he]; exact graphql_query_res_isOk _ _ _ _ _
  by_cases h14 : name = "check_ports"
  · subst h14; exact check_ports_res_isOk _ _ _
  by_cases h15 : name = "view_config"
  · subst h15
    rcases hc : argLookup args "component" with _ | c
    · simp [requiredPresent, hc] at hreq
    have he : call_tool "view_config" args st fs ext = view_config c.asStr st fs ext := by
      show (match argLookup args "component" with
        | none => (⟨st, fs, [], .error (.keyError "component")⟩ : HOut)
        | some c => view_config c.asStr st fs ext) = _
      rw [hc]
    rw [he]; exact view_config_res_isOk _ _ _ _
  by_cases h16 : name = "update_config"
  · subst h16
    rcases hk : argLookup args "key" with _ | k
    · simp [requiredPresent, hk] at hreq
    rcases hv : argLookup args "value" with _ | v
    · simp [requiredPresent, hk, hv] at hreq
    have he : call_tool "update_config" args st fs ext = update_config k.asStr v.asStr st fs ext := by
      show (match argLookup args "key" with
        | none => (⟨st, fs, [], .error (.keyError "key")⟩ : HOut)
        | some k =>
          match argLookup args "value" with
          | none => (⟨st, fs, [], .error (.keyError "value")⟩ : HOut)
          | some v => update_config k.asStr v.asStr st fs ext) = _
      rw [hk, hv]
    rw [he]; exact update_config_res_isOk _ _ _ _ _
  rw [call_tool_unknown_eq name args st fs ext (by
    simp [catalogNames, h1, h2, h3, h4, h5, h6, h7, h8, h9, h10, h11, h12, h13, h14, h15, h16])]
  rfl

/-- Claim C1, witness: restart_service with its required argument present
yields a textual result. -/
theorem call_tool_ok_with_required_args_witness :
    (call_tool "restart_service" [("service", Arg.str "nginx")] false fs0 ext0).res.isOk = true :=
  call_tool_ok_with_required_args "restart_service" [("service", Arg.str "nginx")] false fs0 ext0
    (by decide) (fun h => absurd h (by decide))

/- ── Claim C2 ── -/

/-- Claim C2, confirmed: every one of the five state-dependent tools invoked
while the lifecycle flag is false returns the fixed block message with no
effect and no filesystem change, whatever exists on disk; the dispatcher
forwards the same result for the gated tools. -/
theorem uninitialized_gate_blocks_all (tags limit : String) (check : Bool)
    (tag component key value : String) (args : Args) (fs : FS) (ext : ExtEnv) :
    run_playbook tags limit check false fs ext = ⟨false, fs, [], .ok NOT_INIT_MSG⟩ ∧
    quick_deploy false fs ext = ⟨false, fs, [], .ok NOT_INIT_MSG⟩ ∧
    docker_build tag false fs ext = ⟨false, fs, [], .ok NOT_INIT_MSG⟩ ∧
    view_config component false fs ext = ⟨false, fs, [], .ok NOT_INIT_MSG⟩ ∧
    update_config key value false fs ext = ⟨false, fs, [], .ok NOT_INIT_MSG⟩ ∧
    call_tool "run_playbook" args false fs ext = ⟨false, fs, [], .ok NOT_INIT_MSG⟩ ∧
    call_tool "quick_deploy" args false fs ext = ⟨false, fs, [], .ok NOT_INIT_MSG⟩ ∧
    call_tool "docker_build" args false fs ext = ⟨false, fs, [], .ok NOT_INIT_MSG⟩ :=
  ⟨rfl, rfl, rfl, rfl, rfl, rfl, rfl, rfl⟩

/- ── Claim C3 ── -/

/-- Claim C3, counterexample: after a forced re-initialization whose clone
fails with a non-zero exit code, the lifecycle flag is still true (the state
is not Uninitialized), because `_initialize_environment` never resets the
flag; the failure reason is nevertheless reported. -/
theorem forced_reinit_clone_failure_keeps_flag :
    (initialize_environment true true fsFull extCloneFail).st = true ∧
    (initialize_environment true true fsFull extCloneFail).res =
      .ok "Removed existing repository\nFailed to clone repository: fatal: could not read from remote repository" :=
  ⟨rfl, rfl⟩

/-- Claim C3, amended: initialize_environment with force on an existing
deployment directory removes the directory and attempts exactly one clone;
if the clone fails (missing git binary or non-zero exit code) the failure
reason is returned without retry, and the initialized flag is left unchanged
rather than reset — it is false after the call only if it was false
before. -/
theorem forced_reinit_clone_failure (st : Bool) (fs : FS) (ext : ExtEnv)
    (hdir : fs.ansibleDirE = true) :
    (ext.run cloneCmd none = .fnf →
      initialize_environment true st fs ext =
        ⟨st, rmAnsibleDir { fs with workDirE := true },
         [Effect.mkdirP WORK_DIR, Effect.rmtree ANSIBLE_DIR, Effect.spawn cloneCmd none],
         .ok (joinLines ["Removed existing repository",
           "Error: git is not installed. Please run \x27install_dependencies\x27 first"])⟩) ∧
    (∀ r, ext.run cloneCmd none = .ran r → r.exitCode ≠ 0 →
      initialize_environment true st fs ext =
        ⟨st, ext.clonePost,
         [Effect.mkdirP WORK_DIR, Effect.rmtree ANSIBLE_DIR, Effect.spawn cloneCmd none],
         .ok (joinLines ["Removed existing repository",
           "Failed to clone repository: " ++ r.stderr])⟩) := by
  constructor
  · intro hfnf
    simp [initialize_environment, hdir, hfnf]
  · intro r hrun hne
    simp [initialize_environment, hdir, hrun, hne]

/-- Claim C3, witness: a forced re-initialization from the uninitialized
state whose clone exits non-zero leaves the flag false and reports the
failure. -/
theorem forced_reinit_clone_failure_witness :
    initialize_environment true false fsFull extCloneFail =
      ⟨false, fs0, [Effect.mkdirP WORK_DIR, Effect.rmtree ANSIBLE_DIR, Effect.spawn cloneCmd none],
       .ok (joinLines ["Removed existing repository",
         "Failed to clone repository: fatal: could not read from remote repository"])⟩ :=
  (forced_reinit_clone_failure false fsFull extCloneFail rfl).2
    ⟨1, "", "fatal: could not read from remote repository"⟩ rfl (by decide)

/- ── Claim C4 ── -/

/-- Claim C4, counterexample: the version probe spawned by check_dependencies
carries an enforced 5-second timeout, so quick_deploy is not the only
handler that passes a timeout to the process runner. -/
theorem check_dependencies_probe_has_timeout :
    Effect.spawn ["git", "--version"] (some 5) ∈
      (call_tool "check_dependencies" [] false fs0 extGit).effs ∧
    (some 5 : Option Nat) ≠ none :=
  ⟨by decide, by decide⟩

/-- Claim C4, amended: every process spawn of quick_deploy carries the
300-second timeout, every version probe of check_dependencies carries a
5-second timeout, and every process invocation dispatched to any other tool
carries no timeout at all. -/
theorem spawn_timeout_policy :
    (∀ (st : Bool) (fs : FS) (ext : ExtEnv) (t : Option Nat),
      t ∈ spawnTimeouts (quick_deploy st fs ext).effs → t = some 300) ∧
    (∀ (st : Bool) (fs : FS) (ext : ExtEnv) (t : Option Nat),
      t ∈ spawnTimeouts (check_dependencies st fs ext).effs → t = some 5) ∧
    (∀ (name : String) (args : Args) (st : Bool) (fs : FS) (ext : ExtEnv) (t : Option Nat),
      name ≠ "quick_deploy" → name ≠ "check_dependencies" →
      t ∈ spawnTimeouts (call_tool name args st fs ext).effs → t = none) := by
  refine ⟨quick_deploy_timeouts, ?_, ?_⟩
  · intro st fs ext t h
    exact spawnTimeouts_depsEffs ext depsList t h
  intro name args st fs ext t hqd hcd h
  by_cases h1 : name = "initialize_environment"
  · subst h1; exact init_env_timeouts _ _ _ _ _ h
  by_cases h3 : name = "install_dependencies"
  · subst h3
    have he : (call_tool "install_dependencies" args st fs ext).effs = [] := rfl
    rw [he] at h
    simp [spawnTimeouts] at h
  by_cases h4 : name = "run_playbook"
  · subst h4; exact run_playbook_timeouts _ _ _ _ _ _ _ h
  by_cases h6 : name = "docker_build"
  · subst h6; exact docker_build_timeouts _ _ _ _ _ h
  by_cases h7 : name = "docker_run"
  · subst h7; exact docker_run_timeouts _ _ _ _ _ _ h
  by_cases h8 : name = "check_services"
  · subst h8; exact check_services_timeouts _ _ _ _ h
  by_cases h9 : name = "restart_service"
  · subst h9
    rcases hs : argLookup args "service" with _ | v
    · have he : call_tool "restart_service" args st fs ext =
          ⟨st, fs, [], .error (.keyError "service")⟩ := by
        show (match argLookup args "service" with
          | none => (⟨st, fs, [], .error (.keyError "service")⟩ : HOut)
          | some v => restart_service v.asStr st fs ext) = _
        rw [hs]
      rw [he] at h; simp [spawnTimeouts] at h
    · have he : call_tool "restart_service" args st fs ext = restart_service v.asStr st fs ext := by
        show (match argLookup args "service" with
          | none => (⟨st, fs, [], .error (.keyError "service")⟩ : HOut)
          | some v => restart_service v.asStr st fs ext) = _
        rw [hs]
      rw [he] at h; exact restart_service_timeouts _ _ _ _ _ h
  by_cases h10 : name = "view_logs"
  · subst h10
    rcases hs : argLookup args "service" with _ | v
    · have he : call_tool "view_logs" args st fs ext =
          ⟨st, fs, [], .error (.keyError "service")⟩ := by
        show (match argLookup args "service" with
          | none => (⟨st, fs, [], .error (.keyError "service")⟩ : HOut)
          | some v => view_logs v.asStr (argGet args "lines" (.int 50)).asInt st fs ext) = _
        rw [hs]
      rw [he] at h; simp [spawnTimeouts] at h
    · have he : call_tool "view_logs" args st fs ext =
          view_logs v.asStr (argGet args "lines" (.int 50)).asInt st fs ext := by
        show (match argLookup args "service" with
          | none => (⟨st, fs, [], .error (.keyError "service")⟩ : HOut)
          | some v => view_logs v.asStr (argGet args "lines" (.int 50)).asInt st fs ext) = _
        rw [hs]
      rw [he] at h; exact view_logs_timeouts _ _ _ _ _ _ h
  by_cases h11 : name = "commit_transaction"
  · subst h11
    rcases ht : argLookup args "transaction_id" with _ | a
    · have he : call_tool "commit_transaction" args st fs ext =
          ⟨st, fs, [], .error (.keyError "transaction_id")⟩ := by
        show (match argLookup args "transaction_id" with
          | none => (⟨st, fs, [], .error (.keyError "transaction_id")⟩ : HOut)
          | some a =>
            match argLookup args "value" with
            | none => (⟨st, fs, [], .error (.keyError "value")⟩ : HOut)
            | some b => commit_transaction a.asStr b.asStr st fs ext) = _
        rw [ht]
      rw [he] at h; simp [spawnTimeouts] at h
    · rcases hv : argLookup args "value" with _ | b
      · have he : call_tool "commit_transaction" args st fs ext =
            ⟨st, fs, [], .error (.keyError "value")⟩ := by
          show (match argLookup args "transaction_id" with
            | none => (⟨st, fs, [], .error (.keyError "transaction_id")⟩ : HOut)
            | some a =>
              match argLookup args "value" with
              | none => (⟨st, fs, [], .error (.keyError "value")⟩ : HOut)
              | some b => commit_transaction a.asStr b.asStr st fs ext) = _
          rw [ht, hv]
        rw [he] at h; simp [spawnTimeouts] at h
      · have he : call_tool "commit_transaction" args st fs ext =
            commit_transaction a.asStr b.asStr st fs ext := by
          show (match argLookup args "transaction_id" with
            | none => (⟨st, fs, [], .error (.keyError "transaction_id")⟩ : HOut)
            | some a =>
              match argLookup args "value" with
              | none => (⟨st, fs, [], .error (.keyError "value")⟩ : HOut)
              | some b => commit_transaction a.asStr b.asStr st fs ext) = _
          rw [ht, hv]
        rw [he] at h; exact commit_transaction_timeouts _ _ _ _ _ _ h
  by_cases h12 : name = "get_transaction"
  · subst h12
    rcases ht : argLookup args "transaction_id" with _ | a
    · have he : call_tool "get_transaction" args st fs ext =
          ⟨st, fs, [], .error (.keyError "transaction_id")⟩ := by
        show (match argLookup args "transaction_id" with
          | none => (⟨st, fs, [], .error (.keyError "transaction_id")⟩ : HOut)
          | some a => get_transaction a.asStr st fs ext) = _
        rw [ht]
      rw [he] at h; simp [spawnTimeouts] at h
    · have he : call_tool "get_transaction" args st fs ext = get_transaction a.asStr st fs ext := by
        show (match argLookup args "transaction_id" with
          | none => (⟨st, fs, [], .error (.keyError "transaction_id")⟩ : HOut)
          | some a => get_transaction a.asStr st fs ext) = _
        rw [ht]
      rw [he] at h; exact get_transaction_timeouts _ _ _ _ _ h
  by_cases h13 : name = "graphql_query"
  · subst h13
    rcases hq : argLookup args "query" with _ | q
    · have he : call_tool "graphql_query" args st fs ext =
          ⟨st, fs, [], .error (.keyError "query")⟩ := by
        show (match argLookup args "query" with
          | none => (⟨st, fs, [], .error (.keyError "query")⟩ : HOut)
          | some q => graphql_query q.asStr (argGet args "variables" .dict) st fs ext) = _
        rw [hq]
      rw [he] at h; simp [spawnTimeouts] at h
    · have he : call_tool "graphql_query" args st fs ext =
          graphql_query q.asStr (argGet args "variables" .dict) st fs ext := by
        show (match argLookup args "query" with
          | none => (⟨st, fs, [], .error (.keyError "query")⟩ : HOut)
          | some q => graphql_query q.asStr (argGet args "variables" .dict) st fs ext) = _
        rw [hq]
      rw [he] at h; exact graphql_query_timeouts _ _ _ _ _ _ h
  by_cases h14 : name = "check_ports"
  · subst h14; exact check_ports_timeouts _ _ _ _ h
  by_cases h15 : name = "view_config"
  · subst h15
    rcases hc : argLookup args "component" with _ | c
    · have he : call_tool "view_config" args st fs ext =
          ⟨st, fs, [], .error (.keyError "component")⟩ := by
        show (match argLookup args "component" with
          | none => (⟨st, fs, [], .error (.keyError "component")⟩ : HOut)
          | some c => view_config c.asStr st fs ext) = _
        rw [hc]
      rw [he] at h; simp [spawnTimeouts] at h
    · have he : call_tool "view_config" args st fs ext = view_config c.asStr st fs ext := by
        show (match argLookup args "component" with
          | none => (⟨st, fs, [], .error (.keyError "component")⟩ : HOut)
          | some c => view_config c.asStr st fs ext) = _
        rw [hc]
      rw [he] at h; exact view_config_timeouts _ _ _ _ _ h
  by_cases h16 : name = "update_config"
  · subst h16
    rcases hk : argLookup args "key" with _ | k
    · have he : call_tool "update_config" args st fs ext =
          ⟨st, fs, [], .error (.keyError "key")⟩ := by
        show (match argLookup args "key" with
          | none => (⟨st, fs, [], .error (.keyError "key")⟩ : HOut)
          | some k =>
            match argLookup args "value" with
            | none => (⟨st, fs, [], .error (.keyError "value")⟩ : HOut)
            | some v => update_config k.asStr v.asStr st fs ext) = _
        rw [hk]
      rw [he] at h; simp [spawnTimeouts] at h
    · rcases hv : argLookup args "value" with _ | v
      · have he : call_tool "update_config" args st fs ext =
            ⟨st, fs, [], .error (.keyError "value")⟩ := by
          show (match argLookup args "key" with
            | none => (⟨st, fs, [], .error (.keyError "key")⟩ : HOut)
            | some k =>
              match argLookup args "value" with
              | none => (⟨st, fs, [], .error (.keyError "value")⟩ : HOut)
              | some v => update_config k.asStr v.asStr st fs ext) = _
          rw [hk, hv]
        rw [he] at h; simp [spawnTimeouts] at h
      · have he : call_tool "update_config" args st fs ext =
            update_config k.asStr v.asStr st fs ext := by
          show (match argLookup args "key" with
            | none => (⟨st, fs, [], .error (.keyError "key")⟩ : HOut)
            | some k =>
              match argLookup args "value" with
              | none => (⟨st, fs, [], .error (.keyError "value")⟩ : HOut)
              | some v => update_config k.asStr v.asStr st fs ext) = _
          rw [hk, hv]
        rw [he] at h; exact update_config_timeouts _ _ _ _ _ _ h
  rw [call_tool_unknown_eq name args st fs ext (by
    simp [catalogNames, h1, hcd, h3, h4, hqd, h6, h7, h8, h9, h10, h11, h12, h13, h14, h15, h16])] at h
  simp [spawnTimeouts] at h

/-- Claim C4, witness: a quick_deploy spawn carries the 300-second timeout
and a run_playbook spawn carries none. -/
theorem spawn_timeout_policy_witness :
    (some 300 : Option Nat) = some 300 ∧ (none : Option Nat) = none :=
  ⟨spawn_timeout_policy.1 true fsFull ext0 (some 300) (by decide),
   spawn_timeout_policy.2.2 "run_playbook" [] true fsFull ext0 none (by decide) (by decide)
     (by decide)⟩

/- ── Claim C5 ── -/

/-- Claim C5, confirmed: update_config coerces an all-digit value to the
integer it denotes, a case-insensitive true/false to the corresponding
boolean, and leaves any other value a string; it overwrites the key in the
document and writes the whole updated document back to the configuration
file. -/
theorem update_config_coercion_and_persist (key value : String) (fs : FS) (ext : ExtEnv)
    (cfg : List (String × YVal)) (hc : fs.configFile = some (.doc cfg)) :
    update_config key value true fs ext =
      ⟨true, { fs with configFile := some (.doc (setKey cfg key (coerceValue value))) },
       [Effect.readFile CONFIG_FILE,
        Effect.writeFile CONFIG_FILE (setKey cfg key (coerceValue value))],
       .ok ("Updated " ++ key ++ " = " ++ yvalStr (coerceValue value) ++ " in configuration")⟩ ∧
    (pyIsDigit value = true → coerceValue value = .i (Int.ofNat (digitsToNat value))) ∧
    (pyLower value = "true" → coerceValue value = .b true) ∧
    (pyLower value = "false" → coerceValue value = .b false) ∧
    (pyIsDigit value = false → pyLower value ≠ "true" → pyLower value ≠ "false" →
      coerceValue value = .s value) := by
  refine ⟨?_, coerce_of_digits value, coerce_of_true value, coerce_of_false value,
    coerce_of_other value⟩
  simp [update_config, hc]

/-- Claim C5, witness: updating crow_port to the digit string 42 stores the
integer 42 and persists the whole document. -/
theorem update_config_coercion_and_persist_witness :
    update_config "crow_port" "42" true fsCfg ext0 =
      ⟨true, { fsCfg with configFile := some (.doc [("crow_port", .i 42), ("nginx_port", .i 80)]) },
       [Effect.readFile CONFIG_FILE,
        Effect.writeFile CONFIG_FILE [("crow_port", .i 42), ("nginx_port", .i 80)]],
       .ok "Updated crow_port = 42 in configuration"⟩ :=
  (update_config_coercion_and_persist "crow_port" "42" fsCfg ext0
    [("crow_port", .i 18000), ("nginx_port", .i 80)] rfl).1

/- ── Claim C6 ── -/

/-- Claim C6, confirmed: for a component other than all, view_config renders
exactly the filtered sub-document, and a key is selected if and only if it is
a key of the document that either contains the component name
case-insensitively or belongs to the always-included list. -/
theorem view_config_component_keys (component : String) (cfg : List (String × YVal)) (fs : FS)
    (ext : ExtEnv) (hne : component ≠ "all") (hc : fs.configFile = some (.doc cfg)) :
    view_config component true fs ext =
      ⟨true, fs, [Effect.readFile CONFIG_FILE], .ok (viewComponentText component cfg)⟩ ∧
    (∀ k, k ∈ (filterByComponent cfg component).map Prod.fst ↔
      (k ∈ cfg.map Prod.fst ∧
        (pyIn (pyLower component) (pyLower k) = true ∨ k ∈ alwaysKeys))) := by
  constructor
  · simp [view_config, hc, hne]
  · intro k
    rw [filterByComponent, mem_map_fst_filter]
    simp [relevantKey, List.elem_iff]

/-- Claim C6, witness: viewing the graphql component of the sample document
renders the filtered sub-document. -/
theorem view_config_component_keys_witness :
    view_config "graphql" true fsG ext0 =
      ⟨true, fsG, [Effect.readFile CONFIG_FILE], .ok (viewComponentText "graphql" cfgG)⟩ :=
  (view_config_component_keys "graphql" cfgG fsG ext0 (by decide) rfl).1

/- ── Claim C7 ── -/

/-- Claim C7, confirmed: with the deployment directory present and force
unset, initialize_environment reports that the repository already exists
together with the artifact report, changes nothing on disk, performs no
clone, sets the flag, and a second call returns the identical result. -/
theorem initialize_idempotent_existing_dir (st : Bool) (fs : FS) (ext : ExtEnv)
    (hw : fs.workDirE = true) (hd : fs.ansibleDirE = true) :
    initialize_environment false st fs ext =
      ⟨true, fs, [Effect.mkdirP WORK_DIR],
       .ok (joinLines (("Repository already exists at " ++ ANSIBLE_DIR) :: keyFilesReport fs))⟩ ∧
    initialize_environment false true fs ext = initialize_environment false st fs ext := by
  obtain ⟨w, a, p, i, d, s, c⟩ := fs
  simp only [FS.workDirE] at hw
  simp only [FS.ansibleDirE] at hd
  subst hw hd
  constructor
  · simp [initialize_environment, keyFilesReport]
  · rfl

/-- Claim C7, witness: two successive unforced initializations over an
existing directory return the identical already-exists report. -/
theorem initialize_idempotent_existing_dir_witness :
    initialize_environment false false fsFull ext0 =
      ⟨true, fsFull, [Effect.mkdirP WORK_DIR],
       .ok (joinLines (("Repository already exists at " ++ ANSIBLE_DIR) ::
         keyFilesReport fsFull))⟩ ∧
    initialize_environment false true fsFull ext0 =
      initialize_environment false false fsFull ext0 :=
  initialize_idempotent_existing_dir false fsFull ext0 rfl rfl

/- ── Claim C8 ── -/

/-- Claim C8, confirmed: for any tool name outside the catalog the dispatcher
returns the literal unknown-tool text as an ordinary result, raising nothing
and performing no effect. -/
theorem unknown_tool_textual_result (name : String) (args : Args) (st : Bool) (fs : FS)
    (ext : ExtEnv) (h : name ∉ catalogNames) :
    call_tool name args st fs ext = ⟨st, fs, [], .ok ("Unknown tool: " ++ name)⟩ :=
  call_tool_unknown_eq name args st fs ext h

/-- Claim C8, witness: an arbitrary unknown name yields the unknown-tool
text. -/
theorem unknown_tool_textual_result_witness :
    call_tool "frobnicate" [] false fs0 ext0 = ⟨false, fs0, [], .ok "Unknown tool: frobnicate"⟩ :=
  unknown_tool_textual_result "frobnicate" [] false fs0 ext0 (by decide)

/- ── Claim C9 ── -/

/-- Claim C9, counterexample: a later line that itself contains the
PLAY RECAP marker is a subsequent non-blank line, yet it is not collected
into the summary — a header entry is appended in its place — so the
summarization does not collect every subsequent non-blank line. -/
theorem recap_marker_line_not_collected :
    extractSummary ["PLAY RECAP *", "PLAY RECAP *"] = [SUMMARY_HDR, SUMMARY_HDR] ∧
    "PLAY RECAP *" ∉ extractSummary ["PLAY RECAP *", "PLAY RECAP *"] :=
  ⟨by decide, by decide⟩

/-- Claim C9, amended: when exactly one line contains the PLAY RECAP marker,
the summary is a header entry followed by every subsequent non-blank line,
and on a zero exit code run_playbook returns the success line followed by
only the last 10 collected summary entries (marker lines contribute header
entries instead of being collected verbatim). -/
theorem recap_extraction_behavior :
    (∀ pre m post, (∀ l ∈ pre, pyIn "PLAY RECAP" l = false) →
      pyIn "PLAY RECAP" m = true → (∀ l ∈ post, pyIn "PLAY RECAP" l = false) →
      extractSummary (pre ++ m :: post) = SUMMARY_HDR :: post.filter nonBlank) ∧
    (∀ (tags limit : String) (check : Bool) (fs : FS) (ext : ExtEnv) (r : ProcResult),
      fs.playbookE = true → ext.run (playbookCmd tags limit check) none = .ran r →
      r.exitCode = 0 →
      run_playbook tags limit check true fs ext =
        ⟨true, fs, [Effect.spawn (playbookCmd tags limit check) none],
         .ok ("Playbook executed successfully!\n" ++
           joinLines (takeLast 10 (extractSummary (splitLines r.stdout))))⟩) := by
  constructor
  · intro pre m post h1 h2 h3
    unfold extractSummary
    rw [summarize_append_no_marker pre _ h1]
    simp [summarize, h2]
    exact summarize_true_no_marker post h3
  · intro tags limit check fs ext r hpb hrun hexit
    simp [run_playbook, hpb, hrun, hexit]

/-- Claim C9, witness: a concrete transcript with one marker line is
summarized to the header plus its non-blank recap lines, and a successful
run returns the success text plus the last entries. -/
theorem recap_extraction_behavior_witness :
    extractSummary (["ok: [node1]"] ++ "PLAY RECAP ****" :: ["node1 : ok=3", "", "done"]) =
      SUMMARY_HDR :: ["node1 : ok=3", "", "done"].filter nonBlank ∧
    run_playbook "all" "all" false true fsFull extPlay =
      ⟨true, fsFull, [Effect.spawn (playbookCmd "all" "all" false) none],
       .ok ("Playbook executed successfully!\n" ++
         joinLines (takeLast 10 (extractSummary
           (splitLines "ok: [node1]\nPLAY RECAP ****\nnode1 : ok=3\n\ndone"))))⟩ :=
  ⟨recap_extraction_behavior.1 ["ok: [node1]"] "PLAY RECAP ****" ["node1 : ok=3", "", "done"]
     (by decide) (by decide) (by decide),
   recap_extraction_behavior.2 "all" "all" false fsFull extPlay
     ⟨0, "ok: [node1]\nPLAY RECAP ****\nnode1 : ok=3\n\ndone", ""⟩ rfl rfl rfl⟩

/- ── Claim C10 ── -/

/-- Claim C10, confirmed: install_dependencies is an unimplemented stub — for
every argument mapping and lifecycle state the dispatched call returns the
empty string, performs no effect, and leaves both the flag and the
filesystem untouched. -/
theorem install_dependencies_is_stub (args : Args) (st : Bool) (fs : FS) (ext : ExtEnv) :
    call_tool "install_dependencies" args st fs ext = ⟨st, fs, [], .ok ""⟩ :=
  rfl
